import Mathlib

/-!
Shallow embedding of the realtime chat client in `src/src/app/page.tsx`
(component `RealTimePage`): its React state, the inbound event dispatcher
`handleRealtimeEvent`, the recording controller
(`startRecording` / `stopRecording` and the recorder callbacks), the send
routines `sendAudio` / `sendTextMessage`, and the connection initializer
`initRealTimeConnection`.

Platform objects are abstracted to their observable content:
a `RTCPeerConnection` / `RTCDataChannel` ref is modelled by `Option Unit`
(present or null), a `Blob` by the list of its string parts (what matters
to every claim is which chunks it aggregates), and `window.btoa` base64
re-encoding (injective) is elided, so an outbound audio message carries the
assembled blob content directly.  `JSON.parse` is a platform call; the
data-channel message listener is modelled on its outcome
(`Option RealtimeEvent`, `none` when parsing throws).
-/

/-- Inbound event content entry, from the `RealtimeEvent` interface:
`{ type, transcript?, text? }` (the unused `audio_url` field is dropped). -/
structure ContentItem where
  type : String
  transcript : Option String
  text : Option String
deriving Repr, DecidableEq

/-- Inbound event output item: `{ type, content }`.  The dispatcher checks
`item.content` for truthiness, so it is optional here (`id`, `object`,
`status`, `role` are never read by the dispatcher and are dropped). -/
structure OutputItem where
  type : String
  content : Option (List ContentItem)
deriving Repr, DecidableEq

/-- The nested `response` payload; the dispatcher only reads `output`,
guarded by truthiness. -/
structure ResponsePayload where
  output : Option (List OutputItem)
deriving Repr, DecidableEq

/-- An inbound realtime event: type discriminator plus optional payload. -/
structure RealtimeEvent where
  type : String
  response : Option ResponsePayload
deriving Repr, DecidableEq

/-- Model of the `MediaRecorder` created in `startRecording`.  Its `onstop`
closure captures the `audioChunks` const of the render in which
`startRecording` ran; that captured value is recorded here, because the
closure keeps seeing it even after `setAudioChunks` updates the state. -/
structure MediaRecorder where
  capturedChunks : List String
deriving Repr, DecidableEq

/-- A `Blob` is modelled by the list of its parts (`new Blob(audioChunks)`
aggregates exactly the listed chunks). -/
abbrev Blob := List String

/-- The React state of `RealTimePage` (refs and `useState` hooks).
`pcRef` / `dcRef` record whether the ref currently holds an object. -/
structure PageState where
  pcRef : Option Unit
  dcRef : Option Unit
  isInitialized : Bool
  isRecording : Bool
  aiMessages : List String
  userMessages : List String
  mediaRecorder : Option MediaRecorder
  audioChunks : List String
  isProcessing : Bool
  isAISpeaking : Bool
  aiTranscript : Option String
  error : Option String
deriving Repr, DecidableEq

/-- The state on mount: refs null, flags false, sequences empty. -/
def initialState : PageState where
  pcRef := none
  dcRef := none
  isInitialized := false
  isRecording := false
  aiMessages := []
  userMessages := []
  mediaRecorder := none
  audioChunks := []
  isProcessing := false
  isAISpeaking := false
  aiTranscript := none
  error := none

/-- The inner `item.content.forEach` body of the `response.done` case:
an `"audio"` entry with a defined transcript, or a `"text"` entry with
defined text, is appended to `aiMessages` and becomes `aiTranscript`;
anything else is skipped. -/
def applyContent (s : PageState) (content : ContentItem) : PageState :=
  if content.type = "audio" then
    match content.transcript with
    | some transcript =>
        { s with aiMessages := s.aiMessages ++ [transcript],
                 aiTranscript := some transcript }
    | none => s
  else if content.type = "text" then
    match content.text with
    | some text =>
        { s with aiMessages := s.aiMessages ++ [text],
                 aiTranscript := some text }
    | none => s
  else s

/-- The `event.response.output.forEach` body: only items with
`type === "message"` and truthy `content` have their entries processed. -/
def applyOutputItem (s : PageState) (item : OutputItem) : PageState :=
  if item.type = "message" then
    match item.content with
    | some cs => cs.foldl applyContent s
    | none => s
  else s

/-- `handleRealtimeEvent` from `page.tsx`: dispatch on `event.type`.
Note that in the `response.done` case, `setIsProcessing(false)` sits inside
the `if (event.response && event.response.output)` guard. -/
def handleRealtimeEvent (event : RealtimeEvent) (s : PageState) : PageState :=
  if event.type = "response.done" then
    match event.response with
    | some response =>
        match response.output with
        | some output =>
            { output.foldl applyOutputItem s with isProcessing := false }
        | none => s
    | none => s
  else if event.type = "response.error" then
    { s with aiMessages := s.aiMessages ++ ["AI encountered an error."],
             isProcessing := false }
  else s

/-- Dispatch a sequence of inbound events in arrival order. -/
def processEvents (evs : List RealtimeEvent) (s : PageState) : PageState :=
  evs.foldl (fun s e => handleRealtimeEvent e s) s

/-- The data-channel `"message"` listener, parameterised on the outcome of
`JSON.parse(e.data)`: a successfully parsed event is routed to
`handleRealtimeEvent`; a parse failure (`none`) is caught, logged and
discarded. -/
def onDataChannelMessage (parsed : Option RealtimeEvent) (s : PageState) :
    PageState :=
  match parsed with
  | some ev => handleRealtimeEvent ev s
  | none => s

/-- An outbound message over the data channel.  `audio` carries the
assembled blob content (the base64 re-encoding by `window.btoa` of the
blob's bytes, being injective, is elided); `message` carries the text of
`{type:"message", data:{text}}`. -/
inductive OutMsg where
  | audio (data : String)
  | message (text : String)
deriving Repr, DecidableEq

/-- `sendAudio` from `page.tsx`: with no data channel it clears the
processing flag, sets the error state and sends nothing; otherwise it reads
the blob, transmits `{type:"audio", data:<base64>}` and appends the fixed
placeholder `"You: Audio sent"` to the user transcript. -/
def sendAudio (audioBlob : Blob) (s : PageState) : PageState × List OutMsg :=
  match s.dcRef with
  | none =>
      ({ s with isProcessing := false,
                error := some "Data channel not initialized." }, [])
  | some _ =>
      ({ s with userMessages := s.userMessages ++ ["You: Audio sent"] },
       [OutMsg.audio (String.join audioBlob)])

/-- `sendTextMessage` from `page.tsx`: no-op when `dcRef.current` is null;
otherwise transmit the message envelope, append `"You: " ++ text` to the
user transcript and set the processing flag. -/
def sendTextMessage (text : String) (s : PageState) : PageState × List OutMsg :=
  match s.dcRef with
  | none => (s, [])
  | some _ =>
      ({ s with userMessages := s.userMessages ++ ["You: " ++ text],
                isProcessing := true },
       [OutMsg.message text])

/-- `startRecording` from `page.tsx`.  `micOk` is the outcome of
`getUserMedia` (false = rejected).  The returned `Bool` records whether a
microphone stream was acquired.  Without a peer connection the function
returns before touching anything.  On success a fresh recorder is stored;
its `onstop` closure captures the current render's `audioChunks` value
(recorded in `capturedChunks`), the chunk buffer is reset, and the
recording and processing flags are set. -/
def startRecording (micOk : Bool) (s : PageState) : PageState × Bool :=
  match s.pcRef with
  | none => (s, false)
  | some _ =>
      if micOk then
        ({ s with mediaRecorder := some { capturedChunks := s.audioChunks },
                  audioChunks := [],
                  isRecording := true,
                  isProcessing := true }, true)
      else
        ({ s with error := some "Failed to start recording." }, false)

/-- The recorder's `ondataavailable` handler: a chunk of positive size is
appended to the `audioChunks` state (functional update, so it acts on the
current state). -/
def onDataAvailable (data : String) (s : PageState) : PageState :=
  if data.length > 0 then { s with audioChunks := s.audioChunks ++ [data] }
  else s

/-- `stopRecording` from `page.tsx`: when a recorder exists,
`mediaRecorder.stop()` is called (which makes its `onstop` handler fire and
hand `new Blob(audioChunks)` — with the closure-captured `audioChunks`
value — to `sendAudio`) and the recording flag is cleared.  The second
component is the blob the `onstop` handler assembles and hands to the send
routine (`none` when no recorder exists and nothing fires). -/
def stopRecording (s : PageState) : PageState × Option Blob :=
  match s.mediaRecorder with
  | some recorder => ({ s with isRecording := false }, some recorder.capturedChunks)
  | none => (s, none)

/-- Outcomes of the network / device steps of `initRealTimeConnection`:
whether the `/api/session` credential fetch returns ok, whether
`getUserMedia` succeeds, and whether the SDP negotiation fetch returns ok. -/
structure InitEnv where
  tokenOk : Bool
  micOk : Bool
  sdpOk : Bool
deriving Repr, DecidableEq

/-- `initRealTimeConnection` from `page.tsx`, sequential on `InitEnv`:
a failed credential fetch throws before `new RTCPeerConnection()`;
afterwards the peer connection ref is set, then `getUserMedia` may throw,
then the data channel is created, then the SDP exchange may throw, and only
after the remote answer is committed is `isInitialized` set.  Every throw
lands in the single catch, which sets the one generic error string. -/
def initRealTimeConnection (env : InitEnv) (s : PageState) : PageState :=
  if !env.tokenOk then
    { s with error := some "Failed to initialize connection. Please try again." }
  else
    let s := { s with pcRef := some () }
    if !env.micOk then
      { s with error := some "Failed to initialize connection. Please try again." }
    else
      let s := { s with dcRef := some () }
      if !env.sdpOk then
        { s with error := some "Failed to initialize connection. Please try again." }
      else
        { s with isInitialized := true }

/-- The transcript-mutating operations of the page, for the append-only
invariant: dispatching an inbound event, sending audio, sending text. -/
inductive Op where
  | handle (ev : RealtimeEvent)
  | sendAud (audioBlob : Blob)
  | sendText (text : String)

/-- Run one operation, returning the new state and the transmitted
messages. -/
def applyOp (op : Op) (s : PageState) : PageState × List OutMsg :=
  match op with
  | .handle ev => (handleRealtimeEvent ev s, [])
  | .sendAud audioBlob => sendAudio audioBlob s
  | .sendText text => sendTextMessage text s

/-- The string a single content entry contributes to the AI transcript:
the transcript of an `"audio"` entry or the text of a `"text"` entry, when
present. -/
def contentEntryText (c : ContentItem) : Option String :=
  if c.type = "audio" then c.transcript
  else if c.type = "text" then c.text
  else none

/-- The strings an output item contributes: its qualifying content entries,
in order, when it is a `"message"` item with content. -/
def itemTexts (item : OutputItem) : List String :=
  if item.type = "message" then
    match item.content with
    | some cs => cs.filterMap contentEntryText
    | none => []
  else []

/-- The strings a `response.done` event appends to the AI transcript, in
order. -/
def eventTexts (ev : RealtimeEvent) : List String :=
  if ev.type = "response.done" then
    match ev.response with
    | some response =>
        match response.output with
        | some output => (output.map itemTexts).flatten
        | none => []
    | none => []
  else []

/-- The count the claim's words describe: the total number of content
entries across all output items of an event, with no filtering. -/
def totalContentEntries (ev : RealtimeEvent) : Nat :=
  match ev.response with
  | some response =>
      match response.output with
      | some output => (output.map (fun item => (item.content.getD []).length)).sum
      | none => 0
  | none => 0

/-- What one dispatched event appends to the AI transcript: the qualifying
texts of a `response.done` event, the fixed error string of a
`response.error` event, nothing otherwise. -/
def eventAppends (ev : RealtimeEvent) : List String :=
  if ev.type = "response.done" then eventTexts ev
  else if ev.type = "response.error" then ["AI encountered an error."]
  else []

theorem applyContent_aiMessages (s : PageState) (c : ContentItem) :
    (applyContent s c).aiMessages = s.aiMessages ++ (contentEntryText c).toList := by
  unfold applyContent contentEntryText
  by_cases h1 : c.type = "audio"
  · simp only [if_pos h1]
    cases c.transcript <;> simp
  · by_cases h2 : c.type = "text"
    · simp only [if_neg h1, if_pos h2]
      cases c.text <;> simp
    · simp [if_neg h1, if_neg h2]

theorem applyContent_userMessages (s : PageState) (c : ContentItem) :
    (applyContent s c).userMessages = s.userMessages := by
  unfold applyContent
  by_cases h1 : c.type = "audio"
  · simp only [if_pos h1]
    cases c.transcript <;> simp
  · by_cases h2 : c.type = "text"
    · simp only [if_neg h1, if_pos h2]
      cases c.text <;> simp
    · simp [if_neg h1, if_neg h2]

theorem foldl_applyContent_aiMessages (cs : List ContentItem) (s : PageState) :
    (cs.foldl applyContent s).aiMessages
      = s.aiMessages ++ cs.filterMap contentEntryText := by
  induction cs generalizing s with
  | nil => simp
  | cons c cs ih =>
      rw [List.foldl_cons, ih, applyContent_aiMessages, List.filterMap_cons]
      cases h : contentEntryText c <;> simp [h]

theorem foldl_applyContent_userMessages (cs : List ContentItem) (s : PageState) :
    (cs.foldl applyContent s).userMessages = s.userMessages := by
  induction cs generalizing s with
  | nil => rfl
  | cons c cs ih => rw [List.foldl_cons, ih, applyContent_userMessages]

theorem applyOutputItem_aiMessages (s : PageState) (item : OutputItem) :
    (applyOutputItem s item).aiMessages = s.aiMessages ++ itemTexts item := by
  unfold applyOutputItem itemTexts
  by_cases h : item.type = "message"
  · simp only [if_pos h]
    cases item.content <;> simp [foldl_applyContent_aiMessages]
  · simp [if_neg h]

theorem applyOutputItem_userMessages (s : PageState) (item : OutputItem) :
    (applyOutputItem s item).userMessages = s.userMessages := by
  unfold applyOutputItem
  by_cases h : item.type = "message"
  · simp only [if_pos h]
    cases item.content <;> simp [foldl_applyContent_userMessages]
  · simp [if_neg h]

theorem foldl_applyOutputItem_aiMessages (out : List OutputItem) (s : PageState) :
    (out.foldl applyOutputItem s).aiMessages
      = s.aiMessages ++ (out.map itemTexts).flatten := by
  induction out generalizing s with
  | nil => simp
  | cons item out ih =>
      rw [List.foldl_cons, ih, applyOutputItem_aiMessages]
      simp

theorem foldl_applyOutputItem_userMessages (out : List OutputItem) (s : PageState) :
    (out.foldl applyOutputItem s).userMessages = s.userMessages := by
  induction out generalizing s with
  | nil => rfl
  | cons item out ih => rw [List.foldl_cons, ih, applyOutputItem_userMessages]

theorem handleRealtimeEvent_aiMessages (ev : RealtimeEvent) (s : PageState) :
    (handleRealtimeEvent ev s).aiMessages = s.aiMessages ++ eventAppends ev := by
  unfold handleRealtimeEvent eventAppends eventTexts
  by_cases h1 : ev.type = "response.done"
  · simp only [if_pos h1]
    cases ev.response with
    | none => simp
    | some response =>
        obtain ⟨output⟩ := response
        cases output <;> simp [foldl_applyOutputItem_aiMessages]
  · by_cases h2 : ev.type = "response.error" <;>
      simp [if_neg h1, h2]

theorem handleRealtimeEvent_userMessages (ev : RealtimeEvent) (s : PageState) :
    (handleRealtimeEvent ev s).userMessages = s.userMessages := by
  unfold handleRealtimeEvent
  by_cases h1 : ev.type = "response.done"
  · simp only [if_pos h1]
    cases ev.response with
    | none => simp
    | some response =>
        obtain ⟨output⟩ := response
        cases output <;> simp [foldl_applyOutputItem_userMessages]
  · by_cases h2 : ev.type = "response.error" <;> simp [if_neg h1, h2]

theorem processEvents_aiMessages (evs : List RealtimeEvent) (s : PageState) :
    (processEvents evs s).aiMessages
      = s.aiMessages ++ (evs.map eventAppends).flatten := by
  induction evs generalizing s with
  | nil => simp [processEvents]
  | cons e evs ih =>
      have step := ih (handleRealtimeEvent e s)
      rw [processEvents, List.foldl_cons]
      rw [processEvents] at step
      rw [step, handleRealtimeEvent_aiMessages]
      simp

/-- A `response.done` event whose single `"message"` output item has one
`"audio"` content entry carrying no transcript: a content entry that
appends nothing. -/
def doneEventNoTranscript : RealtimeEvent where
  type := "response.done"
  response := some { output := some [{ type := "message", content := some [{ type := "audio", transcript := none, text := none }] }] }

/-- A `response.done` event with one `"message"` output item holding an
audio entry with transcript `"hi"` and a text entry with text `"there"`. -/
def doneEventHiThere : RealtimeEvent where
  type := "response.done"
  response := some { output := some [{ type := "message", content := some [{ type := "audio", transcript := some "hi", text := none }, { type := "text", transcript := none, text := some "there" }] }] }

/-- C1 as stated is false: a content entry that carries neither a
transcript nor literal text (here an `"audio"` entry without a transcript)
is counted by "total count of content entries across all output items" but
appends nothing to the AI transcript sequence. -/
theorem C1_counterexample :
    ¬ ((processEvents [doneEventNoTranscript] initialState).aiMessages.length
        = ([doneEventNoTranscript].map totalContentEntries).sum) := by
  decide

/-- C1 (amended): for every sequence of inbound `response.done` events, the
AI transcript afterwards is the prior transcript followed by, in arrival
order, exactly the qualifying content entries (entries of `"message"`
output items that are `"audio"` with a transcript or `"text"` with text) of
each event; in particular its length grows by the total count of those
qualifying entries. -/
theorem C1_amended_transcript_growth (evs : List RealtimeEvent) (s : PageState)
    (h : ∀ e ∈ evs, e.type = "response.done") :
    (processEvents evs s).aiMessages
        = s.aiMessages ++ (evs.map eventTexts).flatten ∧
    (processEvents evs s).aiMessages.length
        = s.aiMessages.length + (evs.map fun e => (eventTexts e).length).sum := by
  have hmap : evs.map eventAppends = evs.map eventTexts := by
    apply List.map_congr_left
    intro e he
    simp [eventAppends, h e he]
  refine ⟨?_, ?_⟩
  · rw [processEvents_aiMessages, hmap]
  · rw [processEvents_aiMessages, hmap, List.length_append, List.length_flatten,
        List.map_map]
    rfl

/-- A concrete instance of `C1_amended_transcript_growth`: one
`response.done` event contributing two qualifying content entries. -/
theorem C1_amended_transcript_growth_witness :
    (processEvents [doneEventHiThere] initialState).aiMessages
        = initialState.aiMessages ++ ([doneEventHiThere].map eventTexts).flatten ∧
    (processEvents [doneEventHiThere] initialState).aiMessages.length
        = initialState.aiMessages.length
          + ([doneEventHiThere].map fun e => (eventTexts e).length).sum :=
  C1_amended_transcript_growth [doneEventHiThere] initialState (by decide)

/-- C2 (code bug), evaluated at the failing input: start a recording with a
peer connection present, let one chunk `"c1"` arrive, then stop.  The chunks
appended since the session started are `["c1"]`, the recording flag is
cleared, but the blob the `onstop` handler assembles and hands to
`sendAudio` is built from the stale closure-captured `audioChunks` value —
the empty list that was current when `startRecording` ran — so it omits the
session's chunks. -/
theorem C2_stale_chunks_eval :
    ((onDataAvailable "c1"
        (startRecording true { initialState with pcRef := some () }).1).audioChunks
      = ["c1"])
    ∧ ((stopRecording (onDataAvailable "c1"
        (startRecording true { initialState with pcRef := some () }).1)).1.isRecording
      = false)
    ∧ ((stopRecording (onDataAvailable "c1"
        (startRecording true { initialState with pcRef := some () }).1)).2
      = some [])
    ∧ ((stopRecording (onDataAvailable "c1"
        (startRecording true { initialState with pcRef := some () }).1)).2
      ≠ some ["c1"]) := by
  decide

/-- C3 as stated is false: a `response.done` event carrying no nested
response payload leaves the processing flag set, because
`setIsProcessing(false)` sits inside the
`if (event.response && event.response.output)` guard. -/
theorem C3_counterexample :
    ¬ ((handleRealtimeEvent { type := "response.done", response := none }
          { initialState with isProcessing := true }).isProcessing = false) := by
  decide

/-- C3 (amended): handling a `response.done` event that does carry a nested
response payload with an output array clears the processing flag. -/
theorem C3_amended_processing_cleared (ev : RealtimeEvent)
    (response : ResponsePayload) (output : List OutputItem) (s : PageState)
    (h1 : ev.type = "response.done") (h2 : ev.response = some response)
    (h3 : response.output = some output) :
    (handleRealtimeEvent ev s).isProcessing = false := by
  unfold handleRealtimeEvent
  simp [h1, h2, h3]

/-- A concrete instance of `C3_amended_processing_cleared`: a payload with
an empty output array clears the flag. -/
theorem C3_amended_processing_cleared_witness :
    (handleRealtimeEvent
        { type := "response.done", response := some { output := some [] } }
        { initialState with isProcessing := true }).isProcessing = false :=
  C3_amended_processing_cleared _ { output := some [] } [] _ rfl rfl rfl

/-- C4: every transcript-mutating operation (dispatching an inbound event,
sending audio, sending text) only appends: from every starting state, the
prior AI transcript and the prior user transcript are each an initial
segment of the resulting ones. -/
theorem C4_transcripts_append_only (op : Op) (s : PageState) :
    (∃ t, (applyOp op s).1.aiMessages = s.aiMessages ++ t) ∧
    (∃ u, (applyOp op s).1.userMessages = s.userMessages ++ u) := by
  cases op with
  | handle ev =>
      refine ⟨⟨eventAppends ev, handleRealtimeEvent_aiMessages ev s⟩, ⟨[], ?_⟩⟩
      rw [List.append_nil]
      exact handleRealtimeEvent_userMessages ev s
  | sendAud audioBlob =>
      cases hdc : s.dcRef with
      | none =>
          refine ⟨⟨[], ?_⟩, ⟨[], ?_⟩⟩ <;> simp [applyOp, sendAudio, hdc]
      | some u =>
          refine ⟨⟨[], ?_⟩, ⟨["You: Audio sent"], ?_⟩⟩ <;>
            simp [applyOp, sendAudio, hdc]
  | sendText text =>
      cases hdc : s.dcRef with
      | none =>
          refine ⟨⟨[], ?_⟩, ⟨[], ?_⟩⟩ <;> simp [applyOp, sendTextMessage, hdc]
      | some u =>
          refine ⟨⟨[], ?_⟩, ⟨["You: " ++ text], ?_⟩⟩ <;>
            simp [applyOp, sendTextMessage, hdc]

/-- C5: sending text with no data channel is a no-op — the whole state
(user transcript and processing flag included) is returned unchanged and no
message is transmitted. -/
theorem C5_sendText_noop (text : String) (s : PageState) (h : s.dcRef = none) :
    sendTextMessage text s = (s, []) := by
  unfold sendTextMessage
  rw [h]

/-- A concrete instance of `C5_sendText_noop` on the mount state. -/
theorem C5_sendText_noop_witness :
    sendTextMessage "hello" initialState = (initialState, []) :=
  C5_sendText_noop "hello" initialState rfl

/-- C6: when the credential fetch fails, initialization aborts before the
peer connection is created — the error state becomes exactly
`"Failed to initialize connection. Please try again."`, the peer connection
ref stays null, and the initialized flag stays false. -/
theorem C6_credential_failure (env : InitEnv) (s : PageState)
    (htok : env.tokenOk = false) (hpc : s.pcRef = none)
    (hinit : s.isInitialized = false) :
    (initRealTimeConnection env s).error
        = some "Failed to initialize connection. Please try again." ∧
    (initRealTimeConnection env s).pcRef = none ∧
    (initRealTimeConnection env s).isInitialized = false := by
  unfold initRealTimeConnection
  simp [htok, hpc, hinit]

/-- A concrete instance of `C6_credential_failure`: a failed credential
fetch (with every later step set to succeed) on the mount state. -/
theorem C6_credential_failure_witness :
    (initRealTimeConnection { tokenOk := false, micOk := true, sdpOk := true }
        initialState).error
        = some "Failed to initialize connection. Please try again." ∧
    (initRealTimeConnection { tokenOk := false, micOk := true, sdpOk := true }
        initialState).pcRef = none ∧
    (initRealTimeConnection { tokenOk := false, micOk := true, sdpOk := true }
        initialState).isInitialized = false :=
  C6_credential_failure _ initialState rfl rfl rfl

/-- C7: handling a `response.error` event appends exactly the one entry
`"AI encountered an error."` to the AI transcript, sets the processing flag
to false, and changes nothing else (the stated record update touches only
those two fields). -/
theorem C7_response_error (ev : RealtimeEvent) (s : PageState)
    (h : ev.type = "response.error") :
    handleRealtimeEvent ev s
      = { s with aiMessages := s.aiMessages ++ ["AI encountered an error."],
                 isProcessing := false } := by
  unfold handleRealtimeEvent
  rw [h]
  simp

/-- A concrete instance of `C7_response_error` on the mount state. -/
theorem C7_response_error_witness :
    handleRealtimeEvent { type := "response.error", response := none }
        initialState
      = { initialState with
            aiMessages := initialState.aiMessages ++ ["AI encountered an error."],
            isProcessing := false } :=
  C7_response_error { type := "response.error", response := none }
    initialState rfl

/-- C8: with no peer connection, `startRecording` is rejected up front —
the state is returned unchanged, no microphone stream is acquired, and the
recording and processing flags (false in the idle state it is called from)
stay false. -/
theorem C8_start_rejected_without_pc (micOk : Bool) (s : PageState)
    (hpc : s.pcRef = none) (hrec : s.isRecording = false)
    (hproc : s.isProcessing = false) :
    startRecording micOk s = (s, false) ∧
    (startRecording micOk s).1.isRecording = false ∧
    (startRecording micOk s).1.isProcessing = false := by
  unfold startRecording
  rw [hpc]
  exact ⟨rfl, hrec, hproc⟩

/-- A concrete instance of `C8_start_rejected_without_pc` on the mount
state. -/
theorem C8_start_rejected_without_pc_witness :
    startRecording true initialState = (initialState, false) ∧
    (startRecording true initialState).1.isRecording = false ∧
    (startRecording true initialState).1.isProcessing = false :=
  C8_start_rejected_without_pc true initialState rfl rfl rfl

/-- C9: an inbound data-channel message whose payload fails to parse as
JSON is discarded by the catch handler with no effect at all: the state —
transcripts, flags, error, and the data-channel ref (the channel is never
closed) — is returned unchanged. -/
theorem C9_malformed_discarded (s : PageState) :
    onDataChannelMessage none s = s := rfl

/-- C10: with no media recorder stored, `stopRecording` is a no-op — the
state is unchanged and no blob is assembled or handed to the send
routine. -/
theorem C10_stop_noop (s : PageState) (h : s.mediaRecorder = none) :
    stopRecording s = (s, none) := by
  unfold stopRecording
  rw [h]

/-- A concrete instance of `C10_stop_noop` on the mount state. -/
theorem C10_stop_noop_witness :
    stopRecording initialState = (initialState, none) :=
  C10_stop_noop initialState rfl
